import Mathlib

/-!
Shallow embedding of `src/core/src/services/azfile/pager.rs`: the Azure File
directory-listing pager (`AzfilePager`), its XML page decoder (the serde
structs `EnumerationResults`, `Entries`, `File`, `Directory`, `Properties`),
and the `oio::Page::next` state machine.

External collaborators (HTTP transport `AzfileCore::azfile_list`, the error
mapper `parse_error`, the timestamp parser `parse_datetime_from_rfc2822`) live
outside the source tree and are passed as abstract function parameters, as the
spec specifies them only at the boundary.
-/

namespace Azfile

/-- Entry mode of a listed item, mirroring `EntryMode::FILE` / `EntryMode::DIR`. -/
inductive EntryMode where
  | file
  | dir
deriving DecidableEq, Repr

/-- Decoded `Properties` block, mirroring the Rust serde struct `Properties`:
`content_length` is `Option<u64>`, every other field is a mandatory `String`. -/
structure Properties where
  content_length : Option Nat
  creation_time : String
  last_access_time : String
  last_write_time : String
  change_time : String
  last_modified : String
  etag : String
deriving DecidableEq, Repr

/-- Decoded `File` record, mirroring the Rust serde struct `File`. -/
structure File where
  file_id : String
  name : String
  properties : Properties
deriving DecidableEq, Repr

/-- Decoded `Directory` record, mirroring the Rust serde struct `Directory`. -/
structure Directory where
  file_id : String
  name : String
  properties : Properties
deriving DecidableEq, Repr

/-- Decoded `Entries` node, mirroring the Rust serde struct `Entries`. -/
structure Entries where
  file : List File
  directory : List Directory
deriving DecidableEq, Repr

/-- Decoded top-level document, mirroring the Rust serde struct
`EnumerationResults`. The `Prefix` field is named `pfx` here (`prefix` is a
Lean keyword); `next_marker` carries `#[serde(default)]`, so it is a plain
`String` that defaults to `""`. -/
structure EnumerationResults where
  marker : Option String
  pfx : Option String
  max_results : Option Nat
  directory_id : Option String
  entries : Entries
  next_marker : String
deriving DecidableEq, Repr

/-! ## Raw XML document layer

`quick_xml::de::from_str` first tokenizes the XML text, then maps elements to
the serde structs. Tokenization is third-party library code and is kept
abstract: a body text is either rejected by the XML reader or yields a raw
element tree, represented here by `Raw*` structures in which every child
element is optional (`none` = element absent). The field-mapping stage — which
fields are mandatory, which are optional, which carry defaults — is dictated
by the serde derives in the source and is modelled concretely below. -/

/-- Raw `Properties` element: each child element's text, when present. -/
structure RawProperties where
  contentLength : Option String
  creationTime : Option String
  lastAccessTime : Option String
  lastWriteTime : Option String
  changeTime : Option String
  lastModified : Option String
  etag : Option String
deriving DecidableEq, Repr

/-- Raw `File` / `Directory` element (both serde structs have the same shape). -/
structure RawItem where
  fileId : Option String
  name : Option String
  properties : Option RawProperties
deriving DecidableEq, Repr

/-- Raw `Entries` element: the `File` and `Directory` child lists. Both carry
`#[serde(default)]`, so an absent list is already the empty list. -/
structure RawEntries where
  file : List RawItem
  directory : List RawItem
deriving DecidableEq, Repr

/-- Raw `EnumerationResults` element. -/
structure RawEnumerationResults where
  marker : Option String
  pfx : Option String
  maxResults : Option String
  directoryId : Option String
  entries : Option RawEntries
  nextMarker : Option String
deriving DecidableEq, Repr

/-- Parse a run of decimal digits to a number, accumulator style. -/
def digitsToNat : List Char → Nat → Option Nat
  | [], acc => some acc
  | c :: rest, acc =>
    if '0' ≤ c ∧ c ≤ '9' then digitsToNat rest (acc * 10 + (c.toNat - '0'.toNat)) else none

/-- serde's decimal integer text parsing (used for the `u64` / `u32` fields):
a non-empty all-digit string parses to its value, anything else fails. -/
def parseNatText (s : String) : Option Nat :=
  match s.data with
  | [] => none
  | l => digitsToNat l 0

/-- serde: decode an optional `u64` field (`Content-Length`). -/
def decodeU64Opt (o : Option String) (nm : String) : Except String (Option Nat) :=
  match o with
  | none => .ok none
  | some s =>
    match parseNatText s with
    | none => .error ("invalid integer in field " ++ nm)
    | some n => if n < 2 ^ 64 then .ok (some n) else .error ("integer overflow in field " ++ nm)

/-- serde: decode an optional `u32` field (`MaxResults`). -/
def decodeU32Opt (o : Option String) (nm : String) : Except String (Option Nat) :=
  match o with
  | none => .ok none
  | some s =>
    match parseNatText s with
    | none => .error ("invalid integer in field " ++ nm)
    | some n => if n < 2 ^ 32 then .ok (some n) else .error ("integer overflow in field " ++ nm)

/-- Field mapping for the `Properties` struct: `Content-Length` is
`Option<u64>`; `CreationTime`, `LastAccessTime`, `LastWriteTime`, `ChangeTime`,
`Last-Modified` and `Etag` are mandatory strings. -/
def decodeProperties (r : RawProperties) : Except String Properties :=
  match decodeU64Opt r.contentLength "Content-Length" with
  | .error e => .error e
  | .ok cl =>
  match r.creationTime with
  | none => .error "missing field CreationTime"
  | some ct =>
  match r.lastAccessTime with
  | none => .error "missing field LastAccessTime"
  | some la =>
  match r.lastWriteTime with
  | none => .error "missing field LastWriteTime"
  | some lw =>
  match r.changeTime with
  | none => .error "missing field ChangeTime"
  | some ch =>
  match r.lastModified with
  | none => .error "missing field Last-Modified"
  | some lm =>
  match r.etag with
  | none => .error "missing field Etag"
  | some et => .ok ⟨cl, ct, la, lw, ch, lm, et⟩

/-- Field mapping for the `File` struct: `FileId`, `Name` and `Properties`
are all mandatory. -/
def decodeFile (r : RawItem) : Except String File :=
  match r.fileId with
  | none => .error "missing field FileId"
  | some fid =>
  match r.name with
  | none => .error "missing field Name"
  | some nm =>
  match r.properties with
  | none => .error "missing field Properties"
  | some rp =>
    match decodeProperties rp with
    | .error e => .error e
    | .ok props => .ok ⟨fid, nm, props⟩

/-- Field mapping for the `Directory` struct (same fields as `File`). -/
def decodeDirectory (r : RawItem) : Except String Directory :=
  match r.fileId with
  | none => .error "missing field FileId"
  | some fid =>
  match r.name with
  | none => .error "missing field Name"
  | some nm =>
  match r.properties with
  | none => .error "missing field Properties"
  | some rp =>
    match decodeProperties rp with
    | .error e => .error e
    | .ok props => .ok ⟨fid, nm, props⟩

/-- Decode each `File` element in order; the first failure aborts. -/
def decodeFiles : List RawItem → Except String (List File)
  | [] => .ok []
  | r :: rest =>
    match decodeFile r with
    | .error e => .error e
    | .ok f =>
      match decodeFiles rest with
      | .error e => .error e
      | .ok fs => .ok (f :: fs)

/-- Decode each `Directory` element in order; the first failure aborts. -/
def decodeDirectories : List RawItem → Except String (List Directory)
  | [] => .ok []
  | r :: rest =>
    match decodeDirectory r with
    | .error e => .error e
    | .ok d =>
      match decodeDirectories rest with
      | .error e => .error e
      | .ok ds => .ok (d :: ds)

/-- Field mapping for the `Entries` struct. -/
def decodeEntries (r : RawEntries) : Except String Entries :=
  match decodeFiles r.file with
  | .error e => .error e
  | .ok fs =>
    match decodeDirectories r.directory with
    | .error e => .error e
    | .ok ds => .ok ⟨fs, ds⟩

/-- Field mapping for the `EnumerationResults` struct: `Marker`, `Prefix`,
`MaxResults`, `DirectoryId` are optional; `Entries` is mandatory;
`NextMarker` carries `#[serde(default)]` and defaults to `""`. -/
def decodeEnumerationResults (d : RawEnumerationResults) : Except String EnumerationResults :=
  match decodeU32Opt d.maxResults "MaxResults" with
  | .error e => .error e
  | .ok mr =>
    match d.entries with
    | none => .error "missing field Entries"
    | some re =>
      match decodeEntries re with
      | .error e => .error e
      | .ok es => .ok ⟨d.marker, d.pfx, mr, d.directoryId, es, d.nextMarker.getD ""⟩

/-- A UTF-8 response body text as seen by the XML reader: either text the
reader rejects (with its error message) or text that yields a raw element
tree. -/
inductive BodyText where
  | malformed (e : String)
  | doc (d : RawEnumerationResults)
deriving DecidableEq, Repr

/-- Model of `quick_xml::de::from_str::<EnumerationResults>`: reader errors
surface as-is; a raw tree goes through the serde field mapping. -/
def from_str (t : BodyText) : Except String EnumerationResults :=
  match t with
  | .malformed e => .error e
  | .doc d => decodeEnumerationResults d

/-- A response body: either bytes that are not valid UTF-8, or a valid UTF-8
text. -/
inductive Body where
  | nonUtf8
  | utf8 (t : BodyText)
deriving DecidableEq, Repr

/-- An HTTP response as consumed by `next`: status code plus body. -/
structure Response where
  status : Nat
  body : Body
deriving DecidableEq, Repr

/-- Errors `next` can return. `unexpected op src` models
`Error::new(ErrorKind::Unexpected, op).set_source(src)`; `timeParse s` models
the error of `parse_datetime_from_rfc2822(&s)`; `http st msg` models errors
built by the external error mapper `parse_error`. -/
inductive Error where
  | unexpected (op : String) (src : String)
  | timeParse (s : String)
  | http (st : Nat) (msg : String)
deriving DecidableEq, Repr

/-- Entry metadata, mirroring the `Metadata` the pager builds: mode, etag,
content length (set only for files, via `unwrap_or(0)`), and the parsed
last-modified timestamp (an abstract time value, modelled as `Nat`). -/
structure Metadata where
  mode : EntryMode
  etag : String
  content_length : Option Nat
  last_modified : Nat
deriving DecidableEq, Repr

/-- A normalized output entry, mirroring `oio::Entry`. -/
structure Entry where
  path : String
  metadata : Metadata
deriving DecidableEq, Repr

/-- `self.path.clone().trim_start_matches('/')`: strip every leading `/`. -/
def trimStartSlashes (s : String) : String :=
  ⟨s.data.dropWhile (· == '/')⟩

/-- Map one `File` record to an entry, mirroring lines 83–88 of the source:
`parse_datetime_from_rfc2822` is the abstract collaborator `pt` (a `none`
result models its parse error, propagated by `?`). -/
def mapFile (pt : String → Option Nat) (path : String) (f : File) : Except Error Entry :=
  match pt f.properties.last_modified with
  | none => .error (.timeParse f.properties.last_modified)
  | some t =>
    .ok ⟨trimStartSlashes path ++ f.name,
      ⟨.file, f.properties.etag, some (f.properties.content_length.getD 0), t⟩⟩

/-- Map one `Directory` record to an entry, mirroring lines 92–96 of the
source: no content length is set, and a trailing `/` is appended. -/
def mapDirectory (pt : String → Option Nat) (path : String) (d : Directory) : Except Error Entry :=
  match pt d.properties.last_modified with
  | none => .error (.timeParse d.properties.last_modified)
  | some t =>
    .ok ⟨trimStartSlashes path ++ d.name ++ "/",
      ⟨.dir, d.properties.etag, none, t⟩⟩

/-- The file loop (lines 82–89): first timestamp failure aborts via `?`. -/
def mapFiles (pt : String → Option Nat) (path : String) : List File → Except Error (List Entry)
  | [] => .ok []
  | f :: rest =>
    match mapFile pt path f with
    | .error e => .error e
    | .ok en =>
      match mapFiles pt path rest with
      | .error e => .error e
      | .ok ens => .ok (en :: ens)

/-- The directory loop (lines 91–97). -/
def mapDirectories (pt : String → Option Nat) (path : String) :
    List Directory → Except Error (List Entry)
  | [] => .ok []
  | d :: rest =>
    match mapDirectory pt path d with
    | .error e => .error e
    | .ok en =>
      match mapDirectories pt path rest with
      | .error e => .error e
      | .ok ens => .ok (en :: ens)

/-- Both mapping loops in order: files then directories, appended into the
single `entries` vector. -/
def mapPage (pt : String → Option Nat) (path : String) (r : EnumerationResults) :
    Except Error (List Entry) :=
  match mapFiles pt path r.entries.file with
  | .error e => .error e
  | .ok fs =>
    match mapDirectories pt path r.entries.directory with
    | .error e => .error e
    | .ok ds => .ok (fs ++ ds)

/-- Pager state, mirroring the `AzfilePager` struct (the `core` handle is the
abstract transport collaborator, passed to `next` separately). -/
structure AzfilePager where
  path : String
  limit : Option Nat
  done : Bool
  continuation : String
deriving DecidableEq, Repr

/-- `AzfilePager::new`: `done = false`, empty continuation token. -/
def AzfilePager.new (path : String) (limit : Option Nat) : AzfilePager :=
  ⟨path, limit, false, ""⟩

/-- Outcome of one `next` call: `ok` mirrors `Ok(None)` / `Ok(Some(entries))`,
`err` mirrors `Err(..)`, and `panic` mirrors the
`.expect("response convert to string must success")` abort on a non-UTF-8
body. -/
inductive NextOutcome where
  | ok (page : Option (List Entry))
  | err (e : Error)
  | panic (msg : String)
deriving DecidableEq, Repr

/-- Result of one `next` call: outcome, post-state, and whether a network
request was issued. -/
structure NextResult where
  outcome : NextOutcome
  state : AzfilePager
  issuedRequest : Bool
deriving DecidableEq, Repr

/-- `oio::Page::next` for `AzfilePager` (lines 53–110 of the source).
`parseError` is the external error mapper `parse_error`; `pt` is the external
timestamp parser `parse_datetime_from_rfc2822`; `azfile_list` is
`AzfileCore::azfile_list`, taking `(path, limit, continuation)`. -/
def next (parseError : Response → Error) (pt : String → Option Nat)
    (azfile_list : String → Option Nat → String → Response) (p : AzfilePager) : NextResult :=
  if p.done then
    ⟨.ok none, p, false⟩
  else
    let resp := azfile_list p.path p.limit p.continuation
    if resp.status ≠ 200 then
      if resp.status = 404 then
        ⟨.ok none, p, true⟩
      else
        ⟨.err (parseError resp), p, true⟩
    else
      match resp.body with
      | .nonUtf8 => ⟨.panic "response convert to string must success", p, true⟩
      | .utf8 t =>
        match from_str t with
        | .error e => ⟨.err (.unexpected "deserialize xml from response" e), p, true⟩
        | .ok results =>
          match mapPage pt p.path results with
          | .error e => ⟨.err e, p, true⟩
          | .ok entries =>
            let p' :=
              if results.next_marker.isEmpty then
                { p with done := true }
              else
                { p with continuation := results.next_marker }
            ⟨.ok (if entries.isEmpty then none else some entries), p', true⟩

/-- `true` exactly on the `err` outcome (an error return of `next`). -/
def NextOutcome.isErr : NextOutcome → Bool
  | .err _ => true
  | _ => false

/-! ## Concrete fixtures used by witnesses and counterexamples -/

/-- A concrete error mapper standing in for `parse_error`. -/
def pe0 : Response → Error := fun r => Error.http r.status "mapped"

/-- A concrete timestamp parser standing in for `parse_datetime_from_rfc2822`:
fails exactly on the string `"bad"`. -/
def pt0 : String → Option Nat := fun s => if s = "bad" then none else some 7

/-- A transport collaborator that always returns the same response. -/
def envOf (r : Response) : String → Option Nat → String → Response := fun _ _ _ => r

/-- A fresh cursor on `"dir/"`. -/
def pStart : AzfilePager := AzfilePager.new "dir/" none

/-- A finished cursor. -/
def pDone : AzfilePager := ⟨"dir/", some 3, true, "tok"⟩

/-- Raw properties of a file with `Content-Length` present. -/
def props5 : RawProperties :=
  ⟨some "5832374", some "ct", some "la", some "lw", some "cht", some "lm1", some "etag1"⟩

/-- Raw properties with `Content-Length` absent (typical directory). -/
def propsNoCL : RawProperties :=
  ⟨none, some "ct", some "la", some "lw", some "cht", some "lm2", some "etag2"⟩

/-- Raw properties whose `Last-Modified` text fails `pt0`. -/
def propsBadTime : RawProperties :=
  ⟨some "5", some "ct", some "la", some "lw", some "cht", some "bad", some "etag3"⟩

/-- Raw `File` element named `a.txt`. -/
def itemFileA : RawItem := ⟨some "id1", some "a.txt", some props5⟩

/-- Raw `Directory` element named `b`. -/
def itemDirB : RawItem := ⟨some "id2", some "b", some propsNoCL⟩

/-- Raw `File` element with an unparseable `Last-Modified`. -/
def itemBadTime : RawItem := ⟨some "id3", some "x", some propsBadTime⟩

/-- A page with zero entries but a non-empty `NextMarker`. -/
def docEmptyMarker : RawEnumerationResults := ⟨none, none, none, none, some ⟨[], []⟩, some "m"⟩

/-- A page with one file, one directory and `NextMarker` `"m2"`. -/
def docAB : RawEnumerationResults :=
  ⟨none, none, none, none, some ⟨[itemFileA], [itemDirB]⟩, some "m2"⟩

/-- A page whose only file has an unparseable `Last-Modified`. -/
def docBadTime : RawEnumerationResults :=
  ⟨none, none, none, none, some ⟨[itemBadTime], []⟩, none⟩

/-- Decoded form of `itemFileA`. -/
def fileA : File := ⟨"id1", "a.txt", ⟨some 5832374, "ct", "la", "lw", "cht", "lm1", "etag1"⟩⟩

/-- Decoded form of `itemDirB`. -/
def dirB : Directory := ⟨"id2", "b", ⟨none, "ct", "la", "lw", "cht", "lm2", "etag2"⟩⟩

/-- Decoded form of `itemBadTime`. -/
def fileBadTime : File := ⟨"id3", "x", ⟨some 5, "ct", "la", "lw", "cht", "bad", "etag3"⟩⟩

/-- Decoded form of `docAB`. -/
def resultsAB : EnumerationResults := ⟨none, none, none, none, ⟨[fileA], [dirB]⟩, "m2"⟩

/-- Decoded form of `docBadTime` (`NextMarker` absent defaults to `""`). -/
def resultsBadTime : EnumerationResults := ⟨none, none, none, none, ⟨[fileBadTime], []⟩, ""⟩

/-- Raw properties with `CreationTime` absent (otherwise complete). -/
def propsNoCT : RawProperties :=
  ⟨none, none, some "la", some "lw", some "cht", some "lm1", some "etag9"⟩

/-- Entries mapped from `resultsAB` when listing `"dir/"` under `pt0`. -/
def entriesAB : List Entry :=
  [⟨"dir/a.txt", ⟨.file, "etag1", some 5832374, 7⟩⟩,
   ⟨"dir/b/", ⟨.dir, "etag2", none, 7⟩⟩]

/-! ## Theorems -/

/-- Helper: whenever the cursor is not done, `next` issues a network request
(every non-done branch of the source issues exactly one request). -/
theorem next_issues_of_not_done (pe : Response → Error) (pt : String → Option Nat)
    (env : String → Option Nat → String → Response) (p : AzfilePager)
    (hp : p.done = false) :
    (next pe pt env p).issuedRequest = true := by
  unfold next
  rw [if_neg (by simp [hp])]
  dsimp only
  split
  · split <;> rfl
  · split
    · rfl
    · split
      · rfl
      · split
        · rfl
        · rfl

/-- C4: once `done` is true, `next` returns success with no page, issues no
network request, and leaves the whole cursor state (path, limit,
continuation, done) unchanged — the DONE state is absorbing. -/
theorem c4_done_absorbing (pe : Response → Error) (pt : String → Option Nat)
    (env : String → Option Nat → String → Response) (p : AzfilePager)
    (h : p.done = true) :
    next pe pt env p = ⟨.ok none, p, false⟩ := by
  simp [next, h]

/-- C4 witness: a concrete done cursor. -/
theorem c4_witness :
    pDone.done = true ∧
    next pe0 pt0 (envOf ⟨200, .nonUtf8⟩) pDone = ⟨.ok none, pDone, false⟩ :=
  ⟨rfl, c4_done_absorbing pe0 pt0 (envOf ⟨200, .nonUtf8⟩) pDone rfl⟩

/-- C1 counterexample: on a 404 response `next` returns `Ok(None)` but does
NOT set `done` (the source returns before the `done = true` assignment): the
post-state still has `done = false`, and a second `next` call issues another
network request — contrary to the claim that `done` becomes true and no
further requests are issued. -/
theorem c1_counterexample :
    next pe0 pt0 (envOf ⟨404, .nonUtf8⟩) pStart = ⟨.ok none, pStart, true⟩ ∧
    pStart.done = false ∧
    (next pe0 pt0 (envOf ⟨404, .nonUtf8⟩)
      (next pe0 pt0 (envOf ⟨404, .nonUtf8⟩) pStart).state).issuedRequest = true :=
  ⟨rfl, rfl, rfl⟩

/-- C1 (amended): if the cursor is not done and the response is a 404, `next`
returns success with no page and the cursor state unchanged — in particular
`done` stays false, so a subsequent call issues another network request. -/
theorem c1_amended_404_not_sticky (pe : Response → Error) (pt : String → Option Nat)
    (env : String → Option Nat → String → Response) (p : AzfilePager)
    (hp : p.done = false)
    (h404 : (env p.path p.limit p.continuation).status = 404) :
    next pe pt env p = ⟨.ok none, p, true⟩ ∧
    (next pe pt env (next pe pt env p).state).issuedRequest = true := by
  have h1 : next pe pt env p = ⟨.ok none, p, true⟩ := by
    simp [next, hp, h404]
  exact ⟨h1, by rw [h1]; exact next_issues_of_not_done pe pt env p hp⟩

/-- C1 amended witness: a concrete 404 round trip. -/
theorem c1_amended_witness :
    next pe0 pt0 (envOf ⟨404, .utf8 (.malformed "x")⟩) pStart = ⟨.ok none, pStart, true⟩ ∧
    (next pe0 pt0 (envOf ⟨404, .utf8 (.malformed "x")⟩)
      (next pe0 pt0 (envOf ⟨404, .utf8 (.malformed "x")⟩) pStart).state).issuedRequest = true :=
  c1_amended_404_not_sticky pe0 pt0 (envOf ⟨404, .utf8 (.malformed "x")⟩) pStart rfl rfl

/-- C2 counterexample: a 200 response whose body is not valid UTF-8 does not
return an "unexpected" decode error — the source calls
`.expect("response convert to string must success")`, which panics. The
outcome is the `panic` abort, not an error return (`isErr = false`). -/
theorem c2_counterexample :
    next pe0 pt0 (envOf ⟨200, .nonUtf8⟩) pStart =
      ⟨.panic "response convert to string must success", pStart, true⟩ ∧
    (next pe0 pt0 (envOf ⟨200, .nonUtf8⟩) pStart).outcome.isErr = false :=
  ⟨rfl, rfl⟩

/-- C2 (amended): for a 200 response whose body IS valid UTF-8 but fails to
parse as the enumeration XML schema, `next` returns the "unexpected" error
`deserialize xml from response` wrapping the parse failure, and the cursor
state is unchanged. (A non-UTF-8 body instead aborts with a panic.) -/
theorem c2_amended_decode_error (pe : Response → Error) (pt : String → Option Nat)
    (env : String → Option Nat → String → Response) (p : AzfilePager)
    (t : BodyText) (e : String)
    (hp : p.done = false)
    (henv : env p.path p.limit p.continuation = ⟨200, .utf8 t⟩)
    (hx : from_str t = .error e) :
    next pe pt env p = ⟨.err (.unexpected "deserialize xml from response" e), p, true⟩ := by
  simp [next, hp, henv, hx]

/-- C2 amended witness: a concrete malformed-XML body. -/
theorem c2_amended_witness :
    next pe0 pt0 (envOf ⟨200, .utf8 (.malformed "boom")⟩) pStart =
      ⟨.err (.unexpected "deserialize xml from response" "boom"), pStart, true⟩ :=
  c2_amended_decode_error pe0 pt0 (envOf ⟨200, .utf8 (.malformed "boom")⟩) pStart
    (.malformed "boom") "boom" rfl rfl rfl

/-- C3 counterexample: a first call whose 200 page decodes to zero entries but
carries a non-empty `NextMarker` returns `Ok(None)` with `done` still false
(the continuation token advances to `"m"`) — contrary to the claim that the
cursor is marked done. -/
theorem c3_counterexample :
    next pe0 pt0 (envOf ⟨200, .utf8 (.doc docEmptyMarker)⟩) pStart =
      ⟨.ok none, ⟨"dir/", none, false, "m"⟩, true⟩ ∧
    (next pe0 pt0 (envOf ⟨200, .utf8 (.doc docEmptyMarker)⟩) pStart).state.done = false :=
  ⟨rfl, rfl⟩

/-- C3 (amended): a first call whose 200 page decodes and maps to zero entries
returns success with no page; the cursor is marked done exactly when
`nextMarker` is empty — with a non-empty `nextMarker` the continuation token
advances and `done` stays false. -/
theorem c3_amended_empty_first_page (pe : Response → Error) (pt : String → Option Nat)
    (env : String → Option Nat → String → Response) (path : String) (limit : Option Nat)
    (t : BodyText) (results : EnumerationResults)
    (henv : env path limit "" = ⟨200, .utf8 t⟩)
    (hx : from_str t = .ok results)
    (hm : mapPage pt path results = .ok []) :
    next pe pt env (AzfilePager.new path limit) =
      ⟨.ok none,
        if results.next_marker.isEmpty then ⟨path, limit, true, ""⟩
        else ⟨path, limit, false, results.next_marker⟩, true⟩ := by
  simp only [next, AzfilePager.new, henv, hx, hm]
  split <;> simp_all

/-- C3 amended witness: the zero-entry page with marker `"m"`. -/
theorem c3_amended_witness :
    next pe0 pt0 (envOf ⟨200, .utf8 (.doc docEmptyMarker)⟩) (AzfilePager.new "dir/" none) =
      ⟨.ok none, ⟨"dir/", none, false, "m"⟩, true⟩ :=
  (c3_amended_empty_first_page pe0 pt0 (envOf ⟨200, .utf8 (.doc docEmptyMarker)⟩)
    "dir/" none (.doc docEmptyMarker) ⟨none, none, none, none, ⟨[], []⟩, "m"⟩
    rfl rfl rfl).trans (by rfl)

/-- C5: a response whose status is neither 200 nor 404 makes `next` return
exactly the error produced by the external error mapper on that response,
with the cursor state unchanged — a retry re-issues the request with the same
continuation token. -/
theorem c5_other_status_error (pe : Response → Error) (pt : String → Option Nat)
    (env : String → Option Nat → String → Response) (p : AzfilePager)
    (hp : p.done = false)
    (h200 : (env p.path p.limit p.continuation).status ≠ 200)
    (h404 : (env p.path p.limit p.continuation).status ≠ 404) :
    next pe pt env p = ⟨.err (pe (env p.path p.limit p.continuation)), p, true⟩ := by
  simp [next, hp, h200, h404]

/-- C5 witness: a concrete 500 response. -/
theorem c5_witness :
    next pe0 pt0 (envOf ⟨500, .utf8 (.malformed "boom")⟩) pStart =
      ⟨.err (pe0 ⟨500, .utf8 (.malformed "boom")⟩), pStart, true⟩ :=
  c5_other_status_error pe0 pt0 (envOf ⟨500, .utf8 (.malformed "boom")⟩) pStart
    rfl (by decide) (by decide)

/-- Helper: `mapFile` fails only with a timestamp-parse error on a string the
parser rejects. -/
theorem mapFile_error_shape (pt : String → Option Nat) (path : String) (f : File) (e : Error)
    (h : mapFile pt path f = .error e) :
    ∃ s, e = Error.timeParse s ∧ pt s = none := by
  unfold mapFile at h
  split at h
  · rename_i heq
    injection h with h2
    subst h2
    exact ⟨_, rfl, heq⟩
  · cases h

/-- Helper: `mapDirectory` fails only with a timestamp-parse error. -/
theorem mapDirectory_error_shape (pt : String → Option Nat) (path : String) (d : Directory)
    (e : Error) (h : mapDirectory pt path d = .error e) :
    ∃ s, e = Error.timeParse s ∧ pt s = none := by
  unfold mapDirectory at h
  split at h
  · rename_i heq
    injection h with h2
    subst h2
    exact ⟨_, rfl, heq⟩
  · cases h

/-- Helper: the file loop fails only with a timestamp-parse error. -/
theorem mapFiles_error_shape (pt : String → Option Nat) (path : String) :
    ∀ (l : List File) (e : Error), mapFiles pt path l = .error e →
      ∃ s, e = Error.timeParse s ∧ pt s = none := by
  intro l
  induction l with
  | nil => intro e h; simp [mapFiles] at h
  | cons f rest ih =>
    intro e h
    simp only [mapFiles] at h
    split at h
    · rename_i e1 heq
      injection h with h2
      subst h2
      exact mapFile_error_shape pt path f _ heq
    · split at h
      · rename_i e2 heq
        injection h with h2
        subst h2
        exact ih _ heq
      · cases h

/-- Helper: the directory loop fails only with a timestamp-parse error. -/
theorem mapDirectories_error_shape (pt : String → Option Nat) (path : String) :
    ∀ (l : List Directory) (e : Error), mapDirectories pt path l = .error e →
      ∃ s, e = Error.timeParse s ∧ pt s = none := by
  intro l
  induction l with
  | nil => intro e h; simp [mapDirectories] at h
  | cons d rest ih =>
    intro e h
    simp only [mapDirectories] at h
    split at h
    · rename_i e1 heq
      injection h with h2
      subst h2
      exact mapDirectory_error_shape pt path d _ heq
    · split at h
      · rename_i e2 heq
        injection h with h2
        subst h2
        exact ih _ heq
      · cases h

/-- Helper: `mapPage` fails only with a timestamp-parse error. -/
theorem mapPage_error_shape (pt : String → Option Nat) (path : String)
    (r : EnumerationResults) (e : Error) (h : mapPage pt path r = .error e) :
    ∃ s, e = Error.timeParse s ∧ pt s = none := by
  unfold mapPage at h
  split at h
  · rename_i heq
    injection h with h2
    subst h2
    exact mapFiles_error_shape pt path _ _ heq
  · split at h
    · rename_i heq
      injection h with h2
      subst h2
      exact mapDirectories_error_shape pt path _ _ heq
    · cases h

/-- Helper: a file record whose last-modified fails to parse makes the file
loop fail. -/
theorem mapFiles_fail (pt : String → Option Nat) (path : String) :
    ∀ (l : List File), (∃ f ∈ l, pt f.properties.last_modified = none) →
      ∃ e, mapFiles pt path l = .error e := by
  intro l
  induction l with
  | nil => intro h; simp at h
  | cons f rest ih =>
    intro h
    rcases h with ⟨g, hg, hgn⟩
    rcases List.mem_cons.mp hg with rfl | hgr
    · exact ⟨Error.timeParse g.properties.last_modified, by simp [mapFiles, mapFile, hgn]⟩
    · cases hf : mapFile pt path f with
      | error e1 => exact ⟨e1, by simp [mapFiles, hf]⟩
      | ok en =>
        obtain ⟨e, he⟩ := ih ⟨g, hgr, hgn⟩
        exact ⟨e, by simp [mapFiles, hf, he]⟩

/-- Helper: a directory record whose last-modified fails to parse makes the
directory loop fail. -/
theorem mapDirectories_fail (pt : String → Option Nat) (path : String) :
    ∀ (l : List Directory), (∃ d ∈ l, pt d.properties.last_modified = none) →
      ∃ e, mapDirectories pt path l = .error e := by
  intro l
  induction l with
  | nil => intro h; simp at h
  | cons d rest ih =>
    intro h
    rcases h with ⟨g, hg, hgn⟩
    rcases List.mem_cons.mp hg with rfl | hgr
    · exact ⟨Error.timeParse g.properties.last_modified,
        by simp [mapDirectories, mapDirectory, hgn]⟩
    · cases hd : mapDirectory pt path d with
      | error e1 => exact ⟨e1, by simp [mapDirectories, hd]⟩
      | ok en =>
        obtain ⟨e, he⟩ := ih ⟨g, hgr, hgn⟩
        exact ⟨e, by simp [mapDirectories, hd, he]⟩

/-- Helper: a page containing any record with an unparseable last-modified
fails to map. -/
theorem mapPage_fail (pt : String → Option Nat) (path : String) (r : EnumerationResults)
    (h : (∃ f ∈ r.entries.file, pt f.properties.last_modified = none) ∨
         (∃ d ∈ r.entries.directory, pt d.properties.last_modified = none)) :
    ∃ e, mapPage pt path r = .error e := by
  unfold mapPage
  cases hfs : mapFiles pt path r.entries.file with
  | error e1 => exact ⟨e1, by simp [hfs]⟩
  | ok fs =>
    rcases h with hl | hr
    · obtain ⟨e, he⟩ := mapFiles_fail pt path r.entries.file hl
      rw [he] at hfs
      cases hfs
    · obtain ⟨e, he⟩ := mapDirectories_fail pt path r.entries.directory hr
      exact ⟨e, by simp [hfs, he]⟩

/-- C6: if the decoded page contains a record whose Last-Modified string fails
timestamp parsing, `next` returns that timestamp-parse error, delivers no
entries from the page, and leaves the cursor state (done, continuation)
unchanged. -/
theorem c6_time_parse_error (pe : Response → Error) (pt : String → Option Nat)
    (env : String → Option Nat → String → Response) (p : AzfilePager)
    (t : BodyText) (results : EnumerationResults)
    (hp : p.done = false)
    (henv : env p.path p.limit p.continuation = ⟨200, .utf8 t⟩)
    (hx : from_str t = .ok results)
    (hfail : (∃ f ∈ results.entries.file, pt f.properties.last_modified = none) ∨
             (∃ d ∈ results.entries.directory, pt d.properties.last_modified = none)) :
    ∃ s, pt s = none ∧
      next pe pt env p = ⟨.err (Error.timeParse s), p, true⟩ := by
  obtain ⟨e, he⟩ := mapPage_fail pt p.path results hfail
  obtain ⟨s, hs, hptn⟩ := mapPage_error_shape pt p.path results e he
  subst hs
  exact ⟨s, hptn, by simp [next, hp, henv, hx, he]⟩

/-- C6 witness: a concrete page whose single file has Last-Modified `"bad"`. -/
theorem c6_witness :
    ∃ s, pt0 s = none ∧
      next pe0 pt0 (envOf ⟨200, .utf8 (.doc docBadTime)⟩) pStart =
        ⟨.err (Error.timeParse s), pStart, true⟩ :=
  c6_time_parse_error pe0 pt0 (envOf ⟨200, .utf8 (.doc docBadTime)⟩) pStart
    (.doc docBadTime) resultsBadTime rfl rfl rfl
    (Or.inl ⟨fileBadTime, by simp [resultsBadTime], by rfl⟩)

/-- C7: after a page that decodes and maps successfully, the state update is
exactly: empty `nextMarker` sets `done := true` with the continuation token
unchanged; a non-empty `nextMarker` becomes the new continuation token and
`done` remains false. -/
theorem c7_state_update (pe : Response → Error) (pt : String → Option Nat)
    (env : String → Option Nat → String → Response)
    (pa : String) (pl : Option Nat) (pc : String)
    (t : BodyText) (results : EnumerationResults) (entries : List Entry)
    (henv : env pa pl pc = ⟨200, .utf8 t⟩)
    (hx : from_str t = .ok results)
    (hm : mapPage pt pa results = .ok entries) :
    (next pe pt env ⟨pa, pl, false, pc⟩).state =
      if results.next_marker.isEmpty then ⟨pa, pl, true, pc⟩
      else ⟨pa, pl, false, results.next_marker⟩ := by
  simp [next, henv, hx, hm]

/-- C7 witness: a concrete page with `NextMarker` `"m2"`. -/
theorem c7_witness :
    (next pe0 pt0 (envOf ⟨200, .utf8 (.doc docAB)⟩) ⟨"dir/", none, false, ""⟩).state =
      ⟨"dir/", none, false, "m2"⟩ :=
  (c7_state_update pe0 pt0 (envOf ⟨200, .utf8 (.doc docAB)⟩) "dir/" none ""
    (.doc docAB) resultsAB entriesAB rfl rfl rfl).trans (by rfl)

/-- C8: every mapped record's full path is the cursor's path with leading `/`
characters stripped, concatenated with the record's relative name, and for
directory records additionally followed by a trailing `/`. -/
theorem c8_full_path (pt : String → Option Nat) (path : String) (f : File) (d : Directory)
    (ef ed : Entry)
    (hf : mapFile pt path f = .ok ef) (hd : mapDirectory pt path d = .ok ed) :
    ef.path = trimStartSlashes path ++ f.name ∧
    ed.path = trimStartSlashes path ++ d.name ++ "/" := by
  constructor
  · unfold mapFile at hf
    split at hf
    · cases hf
    · injection hf with h2
      subst h2
      rfl
  · unfold mapDirectory at hd
    split at hd
    · cases hd
    · injection hd with h2
      subst h2
      rfl

/-- C8 witness: listing `"dir/"` with file `a.txt` yields `dir/a.txt` and
with directory `b` yields `dir/b/`. -/
theorem c8_witness :
    (⟨"dir/a.txt", ⟨.file, "etag1", some 5832374, 7⟩⟩ : Entry).path =
      trimStartSlashes "dir/" ++ fileA.name ∧
    (⟨"dir/b/", ⟨.dir, "etag2", none, 7⟩⟩ : Entry).path =
      trimStartSlashes "dir/" ++ dirB.name ++ "/" :=
  c8_full_path pt0 "dir/" fileA dirB _ _ rfl rfl

/-- C9: a `Properties` block with the six mandatory strings present decodes
successfully whether `Content-Length` is absent (yielding `none`, mapped to a
FILE entry with content length 0) or present (yielding its decoded value,
mapped to that value). -/
theorem c9_content_length (pt : String → Option Nat) (path : String)
    (r : RawProperties) (c a w ch lm et fid nm : String) (tv : Nat)
    (hct : r.creationTime = some c) (hla : r.lastAccessTime = some a)
    (hlw : r.lastWriteTime = some w) (hch : r.changeTime = some ch)
    (hlm : r.lastModified = some lm) (het : r.etag = some et)
    (hpt : pt lm = some tv) :
    (r.contentLength = none →
      decodeProperties r = .ok ⟨none, c, a, w, ch, lm, et⟩ ∧
      mapFile pt path ⟨fid, nm, ⟨none, c, a, w, ch, lm, et⟩⟩ =
        .ok ⟨trimStartSlashes path ++ nm, ⟨.file, et, some 0, tv⟩⟩) ∧
    (∀ s n, r.contentLength = some s → parseNatText s = some n → n < 2 ^ 64 →
      decodeProperties r = .ok ⟨some n, c, a, w, ch, lm, et⟩ ∧
      mapFile pt path ⟨fid, nm, ⟨some n, c, a, w, ch, lm, et⟩⟩ =
        .ok ⟨trimStartSlashes path ++ nm, ⟨.file, et, some n, tv⟩⟩) := by
  constructor
  · intro hcl
    constructor
    · simp [decodeProperties, decodeU64Opt, hcl, hct, hla, hlw, hch, hlm, het]
    · simp [mapFile, hpt]
  · intro s n hcl hs hn
    have hn2 : n < 18446744073709551616 := by simpa using hn
    constructor
    · simp [decodeProperties, decodeU64Opt, hcl, hs, hn2, hct, hla, hlw, hch, hlm, het]
    · simp [mapFile, hpt]

/-- C9 witness: the directory-style block without `Content-Length` decodes to
`none` and maps to content length 0; the file block with `5832374` decodes
and maps to 5832374. -/
theorem c9_witness :
    (decodeProperties propsNoCL = .ok ⟨none, "ct", "la", "lw", "cht", "lm2", "etag2"⟩ ∧
      mapFile pt0 "dir/" ⟨"id2", "b", ⟨none, "ct", "la", "lw", "cht", "lm2", "etag2"⟩⟩ =
        .ok ⟨trimStartSlashes "dir/" ++ "b", ⟨.file, "etag2", some 0, 7⟩⟩) ∧
    (decodeProperties props5 = .ok ⟨some 5832374, "ct", "la", "lw", "cht", "lm1", "etag1"⟩ ∧
      mapFile pt0 "dir/" ⟨"id1", "a.txt", ⟨some 5832374, "ct", "la", "lw", "cht", "lm1", "etag1"⟩⟩ =
        .ok ⟨trimStartSlashes "dir/" ++ "a.txt", ⟨.file, "etag1", some 5832374, 7⟩⟩) :=
  ⟨(c9_content_length pt0 "dir/" propsNoCL "ct" "la" "lw" "cht" "lm2" "etag2" "id2" "b" 7
      rfl rfl rfl rfl rfl rfl rfl).1 rfl,
   (c9_content_length pt0 "dir/" props5 "ct" "la" "lw" "cht" "lm1" "etag1" "id1" "a.txt" 7
      rfl rfl rfl rfl rfl rfl rfl).2 "5832374" 5832374 rfl rfl (by decide)⟩

/-- Helper: a successfully decoded `Properties` block had all four auxiliary
timestamp elements present. -/
theorem decodeProperties_ok_shape (r : RawProperties) (props : Properties)
    (h : decodeProperties r = .ok props) :
    r.creationTime = some props.creation_time ∧
    r.lastAccessTime = some props.last_access_time ∧
    r.lastWriteTime = some props.last_write_time ∧
    r.changeTime = some props.change_time := by
  unfold decodeProperties at h
  split at h
  · cases h
  · split at h
    · cases h
    · split at h
      · cases h
      · split at h
        · cases h
        · split at h
          · cases h
          · split at h
            · cases h
            · split at h
              · cases h
              · injection h with h2
                subst h2
                exact ⟨by assumption, by assumption, by assumption, by assumption⟩

/-- C10: each of `CreationTime`, `LastAccessTime`, `LastWriteTime` and
`ChangeTime` is a mandatory string in the `Properties` schema: if any one of
them is absent, the properties block fails to decode, and a 200 page whose
file list contains such a record makes `next` return the "unexpected" decode
error with the cursor state unchanged. -/
theorem c10_timestamp_fields_mandatory (pe : Response → Error) (pt : String → Option Nat)
    (p : AzfilePager) (r : RawProperties) (fid nm : String) (mk : Option String)
    (hp : p.done = false)
    (hmiss : r.creationTime = none ∨ r.lastAccessTime = none ∨
             r.lastWriteTime = none ∨ r.changeTime = none) :
    (∃ e, decodeProperties r = .error e) ∧
    (∃ e, next pe pt
        (envOf ⟨200, .utf8 (.doc
          ⟨none, none, none, none, some ⟨[⟨some fid, some nm, some r⟩], []⟩, mk⟩)⟩) p =
      ⟨.err (.unexpected "deserialize xml from response" e), p, true⟩) := by
  have h1 : ∃ e, decodeProperties r = .error e := by
    cases hdec : decodeProperties r with
    | error e => exact ⟨e, rfl⟩
    | ok props =>
      obtain ⟨s1, s2, s3, s4⟩ := decodeProperties_ok_shape r props hdec
      rcases hmiss with hm | hm | hm | hm <;> simp_all
  obtain ⟨e, he⟩ := h1
  refine ⟨⟨e, he⟩, ⟨e, ?_⟩⟩
  have hfs : from_str (.doc
      ⟨none, none, none, none, some ⟨[⟨some fid, some nm, some r⟩], []⟩, mk⟩) = .error e := by
    simp [from_str, decodeEnumerationResults, decodeU32Opt, decodeEntries,
      decodeFiles, decodeFile, he]
  simp [next, hp, envOf, hfs]

/-- C10 witness: a concrete block missing `CreationTime`. -/
theorem c10_witness :
    (∃ e, decodeProperties propsNoCT = .error e) ∧
    (∃ e, next pe0 pt0
        (envOf ⟨200, .utf8 (.doc
          ⟨none, none, none, none, some ⟨[⟨some "f1", some "n1", some propsNoCT⟩], []⟩, none⟩)⟩)
        pStart =
      ⟨.err (.unexpected "deserialize xml from response" e), pStart, true⟩) :=
  c10_timestamp_fields_mandatory pe0 pt0 pStart propsNoCT "f1" "n1" none rfl (Or.inl rfl)

end Azfile
